import Mathlib

/-
Verification of the NeMo repository fragment: the audio-label dataset factory
helpers (`nemo/collections/asr/data/audio_to_label_dataset.py`), the abstract
encoder-decoder base class (`nemo/collections/nlp/models/enc_dec_nlp_model.py`)
and the machine-translation model
(`nemo/collections/nlp/models/machine_translation/mt_enc_dec_model.py`),
through a shallow embedding of the Python code in Lean.  Tensor-level
operations supplied by the surrounding deep-learning framework (the encoder,
decoder, embedding, classifier and generator submodules, the loss, the
detokenizer and the BLEU scorer) are abstract functions; the repository's own
glue logic is translated line by line.
-/

/-- Two-dimensional integer id tensors (batches of token-id rows) are embedded
as lists of rows of natural-number token ids. -/
abbrev Ids := List (List Nat)

/-- The tokenizer objects held by the model: a vocabulary size and the special
token ids (`bos_id`, `pad_id`, `eos_id`, `unk_id`).  `ids_to_text` and
`text_to_ids` live on the model structures that use them. -/
structure TokenizerModel where
  vocab_size : Nat
  bos_id : Nat
  pad_id : Nat
  eos_id : Nat
  unk_id : Nat
deriving DecidableEq

/-- State of a constructed `MTEncDecModel` as used by `forward`, `eval_step`
and `filter_predicted_ids` (mt_enc_dec_model.py).  The submodules built in
`__init__` — `encoder_embedding`, `encoder`, `decoder_embedding`, `decoder`,
`log_softmax`, `beam_search` — and the loss `loss_fn` are abstract functions
owned by the framework; `H` is the type of hidden-state tensors, `P` of
log-probability tensors, `L` of label tensors.  The decoder mask argument is
an `Option` because Python passes `tgt_mask` through unexamined, `None`
included.  `training` is the `torch.nn.Module.training` flag. -/
structure MTEncDecModel (H P L : Type) where
  decoder_tokenizer : TokenizerModel
  encoder_embedding : Ids → H
  encoder : H → Ids → H
  decoder_embedding : Ids → H
  decoder : H → Option Ids → H → Ids → H
  log_softmax : H → P
  beam_search : H → Ids → Ids
  loss_fn : P → L → ℚ
  ids_to_text : List Nat → String
  training : Bool

/-- Shallow embedding of `MTEncDecModel.filter_predicted_ids`
(mt_enc_dec_model.py lines 115-117):
`ids[ids >= self.decoder_tokenizer.vocab_size] = self.decoder_tokenizer.unk_id`,
the elementwise masked fill of out-of-vocabulary ids with `unk_id`. -/
def MTEncDecModel.filter_predicted_ids {H P L : Type} (m : MTEncDecModel H P L)
    (ids : Ids) : Ids :=
  ids.map (fun row => row.map (fun x =>
    if m.decoder_tokenizer.vocab_size ≤ x then m.decoder_tokenizer.unk_id else x))

/-- Every application of the `self.encoder` submodule is routed through this
helper, which threads a call counter, so that the number of encoder
invocations performed by a method is visible in the embedding. -/
def MTEncDecModel.runEncoder {H P L : Type} (m : MTEncDecModel H P L) (x : H)
    (mask : Ids) (calls : Nat) : H × Nat :=
  (m.encoder x mask, calls + 1)

/-- Shallow embedding of `MTEncDecModel.forward` (mt_enc_dec_model.py lines
119-144).  The source embeds `src`, encodes it once, then: if `tgt` is not
`None`, computes `log_probs` through `decoder_embedding`, `decoder` and
`log_softmax`, else leaves `log_probs = None`; `beam_results` is `None`
unless the module is out of training mode, in which case it is the beam-search
output of the source hiddens passed through `filter_predicted_ids`.  The final
component is the encoder call counter threaded by `runEncoder`. -/
def MTEncDecModel.forward {H P L : Type} (m : MTEncDecModel H P L)
    (src : Ids) (src_mask : Ids) (tgt : Option Ids) (tgt_mask : Option Ids)
    (calls : Nat) : (Option P × Option Ids) × Nat :=
  let src_embeddings := m.encoder_embedding src
  let sh := m.runEncoder src_embeddings src_mask calls
  let src_hiddens := sh.1
  let log_probs : Option P :=
    match tgt with
    | some t =>
      let tgt_embeddings := m.decoder_embedding t
      let tgt_hiddens := m.decoder tgt_embeddings tgt_mask src_hiddens src_mask
      some (m.log_softmax tgt_hiddens)
    | none => none
  let beam_results : Option Ids := none
  let beam_results : Option Ids :=
    if m.training then beam_results
    else
      let br := m.beam_search src_hiddens src_mask
      some (m.filter_predicted_ids br)
  ((log_probs, beam_results), sh.2)

/-- C2: Encoder/decoder composition in `forward`: the source is encoded
exactly once via `encoder_embedding` then `encoder` (the call counter started
at 0 ends at 1); `log_probs` is `none` if and only if `tgt` is `none`, and
otherwise is the log-softmax head applied to the decoder output over the
target embeddings and source hiddens; `beam_results` is `none` if and only if
the model is in training mode, and otherwise is the beam-search output of the
encoder hiddens post-processed by `filter_predicted_ids`. -/
theorem c2_forward_composition {H P L : Type} (m : MTEncDecModel H P L)
    (src src_mask : Ids) (tgt tgt_mask : Option Ids) :
    (m.forward src src_mask tgt tgt_mask 0).2 = 1
    ∧ (m.forward src src_mask tgt tgt_mask 0).1.1
        = tgt.map (fun t => m.log_softmax
            (m.decoder (m.decoder_embedding t) tgt_mask
              (m.encoder (m.encoder_embedding src) src_mask) src_mask))
    ∧ ((m.forward src src_mask tgt tgt_mask 0).1.1 = none ↔ tgt = none)
    ∧ (m.forward src src_mask tgt tgt_mask 0).1.2
        = (if m.training then none
           else some (m.filter_predicted_ids
              (m.beam_search (m.encoder (m.encoder_embedding src) src_mask) src_mask)))
    ∧ ((m.forward src src_mask tgt tgt_mask 0).1.2 = none ↔ m.training = true) := by
  refine ⟨rfl, ?_, ?_, ?_, ?_⟩ <;>
    cases tgt <;> by_cases h : m.training <;>
      simp [MTEncDecModel.forward, MTEncDecModel.runEncoder, h]

/-- C5: `filter_predicted_ids` maps every entry that is ≥ the decoder
tokenizer's `vocab_size` to the decoder tokenizer's `unk_id` and leaves every
other entry unchanged (stated entrywise through optional indexing, which also
shows the shape is preserved), so that, provided `unk_id < vocab_size`, every
entry of the result is a valid vocabulary index. -/
theorem c5_filter_predicted_ids {H P L : Type} (m : MTEncDecModel H P L)
    (ids : Ids)
    (hunk : m.decoder_tokenizer.unk_id < m.decoder_tokenizer.vocab_size) :
    (∀ i j : Nat,
        ((m.filter_predicted_ids ids)[i]?.bind (fun row => row[j]?))
          = (ids[i]?.bind (fun row => row[j]?)).map
              (fun x => if m.decoder_tokenizer.vocab_size ≤ x
                        then m.decoder_tokenizer.unk_id else x))
    ∧ (∀ row ∈ m.filter_predicted_ids ids, ∀ x ∈ row,
        x < m.decoder_tokenizer.vocab_size) := by
  constructor
  · intro i j
    unfold MTEncDecModel.filter_predicted_ids
    rw [List.getElem?_map]
    cases ids[i]? with
    | none => rfl
    | some row => simp [List.getElem?_map]
  · intro row hrow x hx
    unfold MTEncDecModel.filter_predicted_ids at hrow
    obtain ⟨row0, _, rfl⟩ := List.mem_map.mp hrow
    obtain ⟨x0, _, rfl⟩ := List.mem_map.mp hx
    by_cases h : m.decoder_tokenizer.vocab_size ≤ x0
    · simpa [h] using hunk
    · simpa [h] using Nat.lt_of_not_le h

/-- A concrete model instance used to witness the theorems whose statements
carry hypotheses: the submodules are trivial functions, the decoder tokenizer
has vocabulary size 5 and special ids bos 1, pad 0, eos 2, unk 3, and the
module is out of training mode. -/
def sampleModel : MTEncDecModel Unit Unit Unit where
  decoder_tokenizer := { vocab_size := 5, bos_id := 1, pad_id := 0, eos_id := 2, unk_id := 3 }
  encoder_embedding := fun _ => ()
  encoder := fun _ _ => ()
  decoder_embedding := fun _ => ()
  decoder := fun _ _ _ _ => ()
  log_softmax := fun _ => ()
  beam_search := fun _ _ => [[0]]
  loss_fn := fun _ _ => 2
  ids_to_text := fun _ => "a"
  training := false

/-- Witness for C5: on the concrete tensor `[[2, 7], [4]]` with the sample
model (vocabulary size 5, unknown id 3), the out-of-vocabulary entry 7 is
rewritten to 3 while 2 is kept, as the entrywise characterization at indices
(0, 1) and (0, 0) shows. -/
theorem c5_filter_predicted_ids_witness :
    ((sampleModel.filter_predicted_ids [[2, 7], [4]])[0]?.bind (fun row => row[1]?))
        = some 3
    ∧ ((sampleModel.filter_predicted_ids [[2, 7], [4]])[0]?.bind (fun row => row[0]?))
        = some 2 := by
  have h := c5_filter_predicted_ids sampleModel [[2, 7], [4]] (by decide)
  exact ⟨(h.1 0 1).trans (by decide), (h.1 0 0).trans (by decide)⟩

/-- The dictionary returned by `MTEncDecModel.eval_step` (mt_enc_dec_model.py
lines 168-189), keeping the keys that `eval_epoch_end` reads: the per-step
loss, the detokenizable translations and ground truths, and the count of
non-pad target tokens. -/
structure EvalOutput where
  loss : ℚ
  translations : List String
  ground_truths : List String
  num_non_pad_tokens : Nat

/-- Shallow embedding of `MTEncDecModel.eval_step` (lines 168-189): runs
`forward` on the batch with the target present, computes the loss on the
returned log-probabilities, decodes each beam-result row and each target row
with `ids_to_text`, and counts the target ids different from the decoder
tokenizer's pad id (`np.not_equal(np_tgt, pad_id).sum()`).  When `forward`
returns `None` for either output (the module in training mode), the Python
body would fail on it, embedded as `none`. -/
def MTEncDecModel.eval_step {H P L : Type} (m : MTEncDecModel H P L)
    (src_ids src_mask : Ids) (tgt_ids : Ids) (tgt_mask : Option Ids)
    (labels : L) : Option EvalOutput :=
  match (m.forward src_ids src_mask (some tgt_ids) tgt_mask 0).1 with
  | (some log_probs, some beam_results) =>
    some
      { loss := m.loss_fn log_probs labels
        translations := beam_results.map m.ids_to_text
        ground_truths := tgt_ids.map m.ids_to_text
        num_non_pad_tokens :=
          (tgt_ids.map (fun row =>
            row.countP (fun x => decide (x ≠ m.decoder_tokenizer.pad_id)))).sum }
  | _ => none

/-- Shallow embedding of `MTEncDecModel.eval_epoch_end` (lines 212-236).
`moses` is the external `MosesDetokenizer` pipeline applied to one sentence
(`detokenizer.detokenize(sent.split())`), `bleu` the external
`sacrebleu.corpus_bleu`, taking the hypotheses, the list of reference lists
and the `tokenize` argument.  The loss is
`np.sum(losses * counts) / counts.sum()`; the per-step translation and
ground-truth lists are concatenated, detokenized and scored.  The `assert
len(translations) == len(ground_truths)` of line 222 is embedded as the
guard: on failure the Python raises, and the embedding returns `none`. -/
def MTEncDecModel.eval_epoch_end (moses : String → String)
    (bleu : List String → List (List String) → String → ℚ)
    (outputs : List EvalOutput) : Option (ℚ × ℚ) :=
  let counts := outputs.map (fun x => x.num_non_pad_tokens)
  let eval_loss : ℚ :=
    (((outputs.map (fun x => x.loss)).zip counts).map
        (fun p => p.1 * (p.2 : ℚ))).sum / ((counts.sum : Nat) : ℚ)
  let translations := (outputs.map (fun x => x.translations)).flatten
  let ground_truths := (outputs.map (fun x => x.ground_truths)).flatten
  let translations := translations.map moses
  let ground_truths := ground_truths.map moses
  if translations.length = ground_truths.length then
    some (eval_loss, bleu translations [ground_truths] "13a")
  else none

/-- The claim's description of the aggregated loss: the
`num_non_pad_tokens`-weighted average of the per-step losses — the sum of
`loss_i * counts_i` divided by the sum of `counts_i`.  Stated from the spec's
words, to be compared with the loss computed by `eval_epoch_end`. -/
def claimWeightedLoss (outputs : List EvalOutput) : ℚ :=
  (outputs.map (fun o => o.loss * (o.num_non_pad_tokens : ℚ))).sum /
    (((outputs.map (fun o => o.num_non_pad_tokens)).sum : Nat) : ℚ)

/-- Zipping the loss column with the count column and multiplying pointwise is
the same as mapping the product over the outputs. -/
theorem eval_loss_zip_eq (outputs : List EvalOutput) :
    ((outputs.map (fun x => x.loss)).zip (outputs.map (fun x => x.num_non_pad_tokens))).map
        (fun p => p.1 * (p.2 : ℚ))
      = outputs.map (fun o => o.loss * (o.num_non_pad_tokens : ℚ)) := by
  induction outputs with
  | nil => rfl
  | cons o rest ih => simpa using ih

/-- When every step output has as many translations as ground truths, the
concatenations have equal lengths. -/
theorem flatten_length_eq (outputs : List EvalOutput)
    (hlen : ∀ o ∈ outputs, o.translations.length = o.ground_truths.length) :
    ((outputs.map (fun x => x.translations)).flatten).length
      = ((outputs.map (fun x => x.ground_truths)).flatten).length := by
  induction outputs with
  | nil => rfl
  | cons o rest ih =>
    have h1 := hlen o (List.mem_cons_self o rest)
    have h2 := ih (fun x hx => hlen x (List.mem_cons_of_mem o hx))
    simp [h1, h2]

/-- C3: Evaluation-metric aggregation.  First conjunct: every `eval_step`
output carries, as `num_non_pad_tokens`, the number of target ids different
from the decoder tokenizer's pad id.  For every non-empty list of eval-step
outputs whose per-step translation and ground-truth lists have equal lengths,
`eval_epoch_end` returns the `num_non_pad_tokens`-weighted average of the
per-step losses together with the sacreBLEU score computed by `corpus_bleu`
(tokenize "13a") over the concatenated, Moses-detokenized translations
against the ground truths, and those two concatenated lists have equal
length. -/
theorem c3_eval_epoch_end {H P L : Type} (m : MTEncDecModel H P L)
    (moses : String → String)
    (bleu : List String → List (List String) → String → ℚ)
    (outputs : List EvalOutput)
    (hne : outputs ≠ [])
    (hlen : ∀ o ∈ outputs, o.translations.length = o.ground_truths.length) :
    (∀ (src_ids src_mask tgt_ids : Ids) (tgt_mask : Option Ids) (labels : L)
        (out : EvalOutput),
        m.eval_step src_ids src_mask tgt_ids tgt_mask labels = some out →
          out.num_non_pad_tokens
            = (tgt_ids.map (fun row =>
                row.countP (fun x => decide (x ≠ m.decoder_tokenizer.pad_id)))).sum)
    ∧ MTEncDecModel.eval_epoch_end moses bleu outputs
        = some (claimWeightedLoss outputs,
            bleu (((outputs.map (fun o => o.translations)).flatten).map moses)
              [((outputs.map (fun o => o.ground_truths)).flatten).map moses] "13a")
    ∧ ((((outputs.map (fun o => o.translations)).flatten).map moses).length
        = (((outputs.map (fun o => o.ground_truths)).flatten).map moses).length) := by
  have hflat := flatten_length_eq outputs hlen
  refine ⟨?_, ?_, by rw [List.length_map, List.length_map]; exact hflat⟩
  · intro src_ids src_mask tgt_ids tgt_mask labels out hout
    unfold MTEncDecModel.eval_step at hout
    rcases hfwd : (m.forward src_ids src_mask (some tgt_ids) tgt_mask 0).1 with ⟨lp, br⟩
    rw [hfwd] at hout
    cases lp with
    | none => cases hout
    | some p =>
      cases br with
      | none => cases hout
      | some b =>
        cases hout
        rfl
  · unfold MTEncDecModel.eval_epoch_end
    have hguard : (((outputs.map (fun x => x.translations)).flatten).map moses).length
        = (((outputs.map (fun x => x.ground_truths)).flatten).map moses).length := by
      rw [List.length_map, List.length_map]; exact hflat
    rw [if_pos hguard]
    have hzip := eval_loss_zip_eq outputs
    rw [hzip]
    rfl

/-- Witness for C3: a single eval-step output with loss 2, three non-pad
tokens, one translation and one ground truth; the detokenizer is the identity
and the BLEU scorer the constant 7, so the aggregated result is the pair
(2, 7): the weighted loss (2 * 3) / 3 and the BLEU score. -/
theorem c3_eval_epoch_end_witness :
    MTEncDecModel.eval_epoch_end (fun s => s) (fun _ _ _ => 7)
        [{ loss := 2, translations := ["a"], ground_truths := ["b"],
           num_non_pad_tokens := 3 }]
      = some (2, 7) := by
  have h := c3_eval_epoch_end sampleModel (fun s => s) (fun _ _ _ => 7)
    [{ loss := 2, translations := ["a"], ground_truths := ["b"],
       num_non_pad_tokens := 3 }]
    (by simp) (by simp)
  refine h.2.1.trans ?_
  have : claimWeightedLoss
      [{ loss := 2, translations := ["a"], ground_truths := ["b"],
         num_non_pad_tokens := 3 }] = 2 := by
    unfold claimWeightedLoss
    norm_num
  rw [this]

/-- A reference into the parameter heap: a `torch.nn.Parameter` object is
identified by its address, so that the Python attribute assignment of line 99
copies the reference and not the matrix. -/
abbrev ParamRef := Nat

/-- The part of the state built by `MTEncDecModel.__init__` that the weight
tying concerns: the heap of parameter matrices (`W` the matrix type), the
reference held by `self.log_softmax.mlp.layer0.weight` and the reference held
by `self.decoder_embedding.token_embedding.weight`. -/
structure TiedParams (W : Type) where
  heap : ParamRef → W
  log_softmax_weight : ParamRef
  token_embedding_weight : ParamRef

/-- `MTEncDecModel.__init__` as it affects the two weight references: the
`TokenClassifier` of line 76 and the decoder `TransformerEmbedding` of line 67
are created with their own parameters `r1` and `r2` in the heap `heap0`, and
then line 99,
`self.log_softmax.mlp.layer0.weight = self.decoder_embedding.token_embedding.weight`,
rebinds the classifier weight reference to the embedding parameter. -/
def initTiedParams {W : Type} (heap0 : ParamRef → W) (r1 r2 : ParamRef) :
    TiedParams W :=
  let s : TiedParams W :=
    { heap := heap0, log_softmax_weight := r1, token_embedding_weight := r2 }
  { s with log_softmax_weight := s.token_embedding_weight }

/-- An in-place update (a `transformer_weights_init` application of line 103,
an optimizer step, or any later assignment through either alias) of the
parameter matrix stored at reference `r`, by an arbitrary function `f`. -/
def updateParam {W : Type} (s : TiedParams W) (r : ParamRef) (f : W → W) :
    TiedParams W :=
  { s with heap := fun q => if q = r then f (s.heap q) else s.heap q }

/-- A sequence of in-place parameter updates applied in order. -/
def applyUpdates {W : Type} (s : TiedParams W) (us : List (ParamRef × (W → W))) :
    TiedParams W :=
  us.foldl (fun t u => updateParam t u.1 u.2) s

/-- In-place parameter updates never change which parameter a module
attribute refers to. -/
theorem applyUpdates_refs {W : Type} (us : List (ParamRef × (W → W)))
    (s : TiedParams W) :
    (applyUpdates s us).log_softmax_weight = s.log_softmax_weight
    ∧ (applyUpdates s us).token_embedding_weight = s.token_embedding_weight := by
  induction us generalizing s with
  | nil => exact ⟨rfl, rfl⟩
  | cons u rest ih =>
    have h := ih (updateParam s u.1 u.2)
    simpa [applyUpdates, updateParam] using h

/-- C1: Tokenizer-vocabulary tying: after `__init__` returns, the output
classifier weight `self.log_softmax.mlp.layer0.weight` is the same parameter
object (the same heap reference) as the decoder embedding's
`token_embedding.weight`; hence the two matrices are equal after construction
and remain equal under every subsequent sequence of in-place updates to
either of them (or to any other parameter). -/
theorem c1_weight_tying {W : Type} (heap0 : ParamRef → W) (r1 r2 : ParamRef)
    (us : List (ParamRef × (W → W))) :
    ((initTiedParams heap0 r1 r2).log_softmax_weight
        = (initTiedParams heap0 r1 r2).token_embedding_weight)
    ∧ ((initTiedParams heap0 r1 r2).heap (initTiedParams heap0 r1 r2).log_softmax_weight
        = (initTiedParams heap0 r1 r2).heap (initTiedParams heap0 r1 r2).token_embedding_weight)
    ∧ ((applyUpdates (initTiedParams heap0 r1 r2) us).heap
          (applyUpdates (initTiedParams heap0 r1 r2) us).log_softmax_weight
        = (applyUpdates (initTiedParams heap0 r1 r2) us).heap
          (applyUpdates (initTiedParams heap0 r1 r2) us).token_embedding_weight) := by
  obtain ⟨h1, h2⟩ := applyUpdates_refs us (initTiedParams heap0 r1 r2)
  refine ⟨rfl, rfl, ?_⟩
  rw [h1, h2]
  rfl

/-- The embedding-layer configuration block read by `__init__`
(`cfg.decoder_embedding`). -/
structure EmbeddingConfig where
  max_sequence_length : Nat
  num_token_types : Nat
  embedding_dropout : ℚ
  learn_positional_encodings : Bool

/-- The slice of `MTEncDecModelConfig` that configures sequence generation:
`cfg.decoder_embedding`, `cfg.beam_size`, `cfg.len_pen` and
`cfg.max_generation_delta`. -/
structure MTGenConfig where
  decoder_embedding : EmbeddingConfig
  beam_size : Nat
  len_pen : ℚ
  max_generation_delta : Int

/-- The constructor arguments of `BeamSearchSequenceGenerator` recorded at
its construction (lines 85-96); the generator stores the maximum length as
`max_seq_length`. -/
structure BeamSearchSequenceGenerator where
  max_seq_length : Nat
  beam_size : Nat
  bos : Nat
  pad : Nat
  eos : Nat
  len_pen : ℚ
  max_delta_length : Int
deriving DecidableEq

/-- The constructor arguments of `TopKSequenceGenerator` recorded at its
construction (lines 294-303). -/
structure TopKSequenceGenerator where
  max_seq_length : Nat
  beam_size : Nat
  bos : Nat
  pad : Nat
  eos : Nat
deriving DecidableEq

/-- The value of `self.beam_search`: either the beam-search generator built in
`__init__` or the top-k sampler substituted by `replace_beam_with_sampling`. -/
inductive SeqGenerator where
  | beam (g : BeamSearchSequenceGenerator)
  | topk (g : TopKSequenceGenerator)
deriving DecidableEq

/-- The `max_seq_length` attribute of the current generator, read by
`replace_beam_with_sampling` as `self.beam_search.max_seq_length`. -/
def SeqGenerator.max_seq_length : SeqGenerator → Nat
  | SeqGenerator.beam g => g.max_seq_length
  | SeqGenerator.topk g => g.max_seq_length

/-- Lines 85-96 of `MTEncDecModel.__init__`: the construction of
`self.beam_search` from the model config and the decoder tokenizer. -/
def MTEncDecModel.init_beam_search (cfg : MTGenConfig)
    (decoder_tokenizer : TokenizerModel) : SeqGenerator :=
  SeqGenerator.beam
    { max_seq_length := cfg.decoder_embedding.max_sequence_length
      beam_size := cfg.beam_size
      bos := decoder_tokenizer.bos_id
      pad := decoder_tokenizer.pad_id
      eos := decoder_tokenizer.eos_id
      len_pen := cfg.len_pen
      max_delta_length := cfg.max_generation_delta }

/-- Shallow embedding of `MTEncDecModel.replace_beam_with_sampling` (lines
293-303): replaces `self.beam_search` with a `TopKSequenceGenerator` that
keeps the current generator's `max_seq_length`, uses `topk` as its beam size
and re-reads the special ids from the decoder tokenizer. -/
def MTEncDecModel.replace_beam_with_sampling (decoder_tokenizer : TokenizerModel)
    (beam_search : SeqGenerator) (topk : Nat) : SeqGenerator :=
  SeqGenerator.topk
    { max_seq_length := beam_search.max_seq_length
      beam_size := topk
      bos := decoder_tokenizer.bos_id
      pad := decoder_tokenizer.pad_id
      eos := decoder_tokenizer.eos_id }

/-- Modelled from the spec: the step behaviour of the
`BeamSearchSequenceGenerator` library class
(`nemo.collections.nlp.modules.common.transformer`, a module of this
repository that is not included under `src/`): "heuristic search over partial
output sequences scored by model likelihood, keeping top-k candidates at each
step" — at each step the candidate partial output sequences, paired with
their model log-likelihood scores, are ranked by score and the `beam_size`
best are kept. -/
def beamSearchStep (beam_size : Nat) (candidates : List (List Nat × ℚ)) :
    List (List Nat × ℚ) :=
  (candidates.mergeSort (fun a b => decide (b.2 ≤ a.2))).take beam_size

/-- C4: Beam search generation.  The generator built by `__init__` is a beam
searcher configured with the decoder tokenizer's bos, pad and eos ids, the
decoder embedding's `max_sequence_length`, beam size `cfg.beam_size`, length
penalty `cfg.len_pen` and maximum delta length `cfg.max_generation_delta`;
after `replace_beam_with_sampling(topk)` the generator is a top-k sampler
with beam size `topk`, the same `max_sequence_length` and the same special
ids; and the (spec-modelled) beam-search step keeps at most `beam_size`
candidates, all drawn from the candidate set and sorted by non-increasing
model likelihood — the top `beam_size`. -/
theorem c4_beam_search_generation (cfg : MTGenConfig) (tok : TokenizerModel)
    (topk : Nat) :
    (MTEncDecModel.init_beam_search cfg tok
        = SeqGenerator.beam
            { max_seq_length := cfg.decoder_embedding.max_sequence_length
              beam_size := cfg.beam_size
              bos := tok.bos_id
              pad := tok.pad_id
              eos := tok.eos_id
              len_pen := cfg.len_pen
              max_delta_length := cfg.max_generation_delta })
    ∧ (MTEncDecModel.replace_beam_with_sampling tok
          (MTEncDecModel.init_beam_search cfg tok) topk
        = SeqGenerator.topk
            { max_seq_length := cfg.decoder_embedding.max_sequence_length
              beam_size := topk
              bos := tok.bos_id
              pad := tok.pad_id
              eos := tok.eos_id })
    ∧ (∀ candidates : List (List Nat × ℚ),
        (beamSearchStep cfg.beam_size candidates).length ≤ cfg.beam_size
        ∧ (∀ c ∈ beamSearchStep cfg.beam_size candidates, c ∈ candidates)
        ∧ List.Pairwise (fun a b : List Nat × ℚ => b.2 ≤ a.2)
            (beamSearchStep cfg.beam_size candidates)) := by
  refine ⟨rfl, rfl, ?_⟩
  intro candidates
  refine ⟨?_, ?_, ?_⟩
  · calc (beamSearchStep cfg.beam_size candidates).length
        = min cfg.beam_size (candidates.mergeSort (fun a b => decide (b.2 ≤ a.2))).length :=
          List.length_take cfg.beam_size _
      _ ≤ cfg.beam_size := Nat.min_le_left _ _
  · intro c hc
    have hsub := (List.take_sublist cfg.beam_size
      (candidates.mergeSort (fun a b => decide (b.2 ≤ a.2)))).subset hc
    exact (List.mergeSort_perm candidates (fun a b => decide (b.2 ≤ a.2))).subset hsub
  · have htrans : ∀ a b c : List Nat × ℚ,
        decide (b.2 ≤ a.2) = true → decide (c.2 ≤ b.2) = true →
        decide (c.2 ≤ a.2) = true := by
      intro a b c hab hbc
      simp only [decide_eq_true_eq] at *
      exact le_trans hbc hab
    have htotal : ∀ a b : List Nat × ℚ,
        (decide (b.2 ≤ a.2) || decide (a.2 ≤ b.2)) = true := by
      intro a b
      simpa using le_total b.2 a.2
    have hsorted := List.sorted_mergeSort htrans htotal candidates
    have hpair := hsorted.sublist (List.take_sublist cfg.beam_size _)
    exact hpair.imp (fun h => by simpa using h)

/-- A dataset-construction config dict for `audio_to_label_dataset.py`: the
keys read with `config[key]` are plain fields, the keys read with
`config.get(key, default)` are `Option` fields, `none` meaning the key is
absent.  Durations and window lengths are rationals (Python floats appear only
as opaque constants, never computed with). -/
structure AudioLabelConfig where
  manifest_filepath : String
  labels : List String
  tarred_audio_filepaths : String
  max_duration : Option ℚ
  min_duration : Option ℚ
  trim_silence : Option Bool
  load_audio : Option Bool
  time_length : Option ℚ
  shift_length : Option ℚ
  normalize_audio : Option Bool
  tarred_shard_strategy : Option String
deriving DecidableEq

/-- The constructor arguments of
`audio_to_label.AudioToClassificationLabelDataset`, recorded as the dataset
value; `F` is the abstract featurizer type. -/
structure AudioToClassificationLabelDataset (F : Type) where
  manifest_filepath : String
  labels : List String
  featurizer : F
  max_duration : Option ℚ
  min_duration : Option ℚ
  trim : Bool
  load_audio : Bool

/-- The constructor arguments of `audio_to_label.AudioToSpeechLabelDataSet`. -/
structure AudioToSpeechLabelDataSet (F : Type) where
  manifest_filepath : String
  labels : List String
  featurizer : F
  max_duration : Option ℚ
  min_duration : Option ℚ
  trim : Bool
  load_audio : Bool
  time_length : ℚ
  shift_length : ℚ
  normalize_audio : Bool

/-- The constructor arguments of
`audio_to_label.TarredAudioToClassificationLabelDataset`. -/
structure TarredAudioToClassificationLabelDataset (F : Type) where
  audio_tar_filepaths : String
  manifest_filepath : String
  labels : List String
  featurizer : F
  max_duration : Option ℚ
  min_duration : Option ℚ
  trim : Bool
  shard_strategy : String
  global_rank : Nat
  world_size : Nat

/-- The constructor arguments of
`audio_to_label.TarredAudioToSpeechLabelDataSet`. -/
structure TarredAudioToSpeechLabelDataSet (F : Type) where
  audio_tar_filepaths : String
  manifest_filepath : String
  labels : List String
  featurizer : F
  max_duration : Option ℚ
  min_duration : Option ℚ
  trim : Bool
  load_audio : Bool
  time_length : ℚ
  shift_length : ℚ
  normalize_audio : Bool
  shard_strategy : String
  global_rank : Nat
  world_size : Nat

/-- Shallow embedding of `get_classification_label_dataset`
(audio_to_label_dataset.py lines 23-47); the `augmentor` parameter (abstract
type `A`) is accepted, as in the source, and not forwarded. -/
def get_classification_label_dataset {F A : Type} (featurizer : F)
    (config : AudioLabelConfig) (augmentor : Option A) :
    AudioToClassificationLabelDataset F :=
  { manifest_filepath := config.manifest_filepath
    labels := config.labels
    featurizer := featurizer
    max_duration := config.max_duration
    min_duration := config.min_duration
    trim := config.trim_silence.getD true
    load_audio := config.load_audio.getD true }

/-- Shallow embedding of `get_speech_label_dataset` (lines 49-76). -/
def get_speech_label_dataset {F A : Type} (featurizer : F)
    (config : AudioLabelConfig) (augmentor : Option A) :
    AudioToSpeechLabelDataSet F :=
  { manifest_filepath := config.manifest_filepath
    labels := config.labels
    featurizer := featurizer
    max_duration := config.max_duration
    min_duration := config.min_duration
    trim := config.trim_silence.getD true
    load_audio := config.load_audio.getD true
    time_length := config.time_length.getD (0.31 : ℚ)
    shift_length := config.shift_length.getD (0.01 : ℚ)
    normalize_audio := config.normalize_audio.getD false }

/-- Shallow embedding of `get_tarred_classification_label_dataset` (lines
79-113); `shuffle_n` and `augmentor` are accepted, as in the source, and not
forwarded. -/
def get_tarred_classification_label_dataset {F A : Type} (featurizer : F)
    (config : AudioLabelConfig) (shuffle_n : Nat) (global_rank : Nat)
    (world_size : Nat) (augmentor : Option A) :
    TarredAudioToClassificationLabelDataset F :=
  { audio_tar_filepaths := config.tarred_audio_filepaths
    manifest_filepath := config.manifest_filepath
    labels := config.labels
    featurizer := featurizer
    max_duration := config.max_duration
    min_duration := config.min_duration
    trim := config.trim_silence.getD true
    shard_strategy := config.tarred_shard_strategy.getD "scatter"
    global_rank := global_rank
    world_size := world_size }

/-- Shallow embedding of `get_tarred_speech_label_dataset` (lines 116-154). -/
def get_tarred_speech_label_dataset {F A : Type} (featurizer : F)
    (config : AudioLabelConfig) (shuffle_n : Nat) (global_rank : Nat)
    (world_size : Nat) (augmentor : Option A) :
    TarredAudioToSpeechLabelDataSet F :=
  { audio_tar_filepaths := config.tarred_audio_filepaths
    manifest_filepath := config.manifest_filepath
    labels := config.labels
    featurizer := featurizer
    max_duration := config.max_duration
    min_duration := config.min_duration
    trim := config.trim_silence.getD true
    load_audio := config.load_audio.getD true
    time_length := config.time_length.getD (0.31 : ℚ)
    shift_length := config.shift_length.getD (0.01 : ℚ)
    normalize_audio := config.normalize_audio.getD false
    shard_strategy := config.tarred_shard_strategy.getD "scatter"
    global_rank := global_rank
    world_size := world_size }

/-- C6: Tarred dataset sharding-by-rank: both tarred factories construct the
dataset with `shard_strategy` equal to the config's `tarred_shard_strategy`
value when present and `"scatter"` otherwise (`Option.getD`), and pass the
given `global_rank` and `world_size` arguments through unchanged. -/
theorem c6_tarred_shard_strategy {F A : Type} (featurizer : F)
    (config : AudioLabelConfig) (shuffle_n : Nat) (global_rank : Nat)
    (world_size : Nat) (augmentor : Option A) :
    ((get_tarred_classification_label_dataset featurizer config shuffle_n
        global_rank world_size augmentor).shard_strategy
      = config.tarred_shard_strategy.getD "scatter")
    ∧ ((get_tarred_classification_label_dataset featurizer config shuffle_n
        global_rank world_size augmentor).global_rank = global_rank)
    ∧ ((get_tarred_classification_label_dataset featurizer config shuffle_n
        global_rank world_size augmentor).world_size = world_size)
    ∧ ((get_tarred_speech_label_dataset featurizer config shuffle_n
        global_rank world_size augmentor).shard_strategy
      = config.tarred_shard_strategy.getD "scatter")
    ∧ ((get_tarred_speech_label_dataset featurizer config shuffle_n
        global_rank world_size augmentor).global_rank = global_rank)
    ∧ ((get_tarred_speech_label_dataset featurizer config shuffle_n
        global_rank world_size augmentor).world_size = world_size) :=
  ⟨rfl, rfl, rfl, rfl, rfl, rfl⟩

/-- C7: Dataset factory defaults: for every config, both untarred factories
take `manifest_filepath` and `labels` from the config; and on a config where
every optional key is absent, `get_classification_label_dataset` defaults
`max_duration` and `min_duration` to `None`, `trim_silence` to `True` and
`load_audio` to `True`, while `get_speech_label_dataset` additionally
defaults `time_length` to 0.31, `shift_length` to 0.01 and `normalize_audio`
to `False`. -/
theorem c7_dataset_factory_defaults {F A : Type} (featurizer : F)
    (config : AudioLabelConfig) (augmentor : Option A) (mf : String)
    (lb : List String) (tar : String) :
    ((get_classification_label_dataset featurizer config augmentor).manifest_filepath
        = config.manifest_filepath)
    ∧ ((get_classification_label_dataset featurizer config augmentor).labels
        = config.labels)
    ∧ ((get_speech_label_dataset featurizer config augmentor).manifest_filepath
        = config.manifest_filepath)
    ∧ ((get_speech_label_dataset featurizer config augmentor).labels
        = config.labels)
    ∧ (get_classification_label_dataset featurizer
          { manifest_filepath := mf, labels := lb, tarred_audio_filepaths := tar
            max_duration := none, min_duration := none, trim_silence := none
            load_audio := none, time_length := none, shift_length := none
            normalize_audio := none, tarred_shard_strategy := none } augmentor
        = { manifest_filepath := mf, labels := lb, featurizer := featurizer
            max_duration := none, min_duration := none, trim := true
            load_audio := true })
    ∧ (get_speech_label_dataset featurizer
          { manifest_filepath := mf, labels := lb, tarred_audio_filepaths := tar
            max_duration := none, min_duration := none, trim_silence := none
            load_audio := none, time_length := none, shift_length := none
            normalize_audio := none, tarred_shard_strategy := none } augmentor
        = { manifest_filepath := mf, labels := lb, featurizer := featurizer
            max_duration := none, min_duration := none, trim := true
            load_audio := true, time_length := (0.31 : ℚ)
            shift_length := (0.01 : ℚ), normalize_audio := false }) :=
  ⟨rfl, rfl, rfl, rfl, rfl, rfl⟩

/-- C10: Ignored factory arguments: for each of the four dataset factory
functions, two calls that differ only in `augmentor` construct identical
datasets, and for the two tarred factories two calls that differ only in
`shuffle_n` construct identical datasets — both parameters are accepted but
never forwarded to the dataset constructor. -/
theorem c10_ignored_factory_arguments {F A : Type} (featurizer : F)
    (config : AudioLabelConfig) (a1 a2 : Option A) (n1 n2 : Nat)
    (global_rank : Nat) (world_size : Nat) :
    (get_classification_label_dataset featurizer config a1
        = get_classification_label_dataset featurizer config a2)
    ∧ (get_speech_label_dataset featurizer config a1
        = get_speech_label_dataset featurizer config a2)
    ∧ (get_tarred_classification_label_dataset featurizer config n1
          global_rank world_size a1
        = get_tarred_classification_label_dataset featurizer config n1
          global_rank world_size a2)
    ∧ (get_tarred_speech_label_dataset featurizer config n1
          global_rank world_size a1
        = get_tarred_speech_label_dataset featurizer config n1
          global_rank world_size a2)
    ∧ (get_tarred_classification_label_dataset featurizer config n1
          global_rank world_size a1
        = get_tarred_classification_label_dataset featurizer config n2
          global_rank world_size a1)
    ∧ (get_tarred_speech_label_dataset featurizer config n1
          global_rank world_size a1
        = get_tarred_speech_label_dataset featurizer config n2
          global_rank world_size a1) :=
  ⟨rfl, rfl, rfl, rfl, rfl, rfl⟩

/-- The externally visible constructions performed by
`_setup_dataloader_from_config`, in execution order: unpickling the cached
dataset, building a `TranslationDataset`, batchifying it, and building the
`torch.utils.data.DataLoader`. -/
inductive DataLoaderEffect where
  | load_cached_dataset
  | build_translation_dataset
  | batchify
  | build_data_loader
deriving DecidableEq

/-- The sampler chosen by `_setup_dataloader_from_config` (lines 280-283). -/
inductive Sampler where
  | random
  | sequential
deriving DecidableEq

/-- The data config read by `_setup_dataloader_from_config`: `cfg.get(k, d)`
reads are `Option` fields (`none` = key absent), direct attribute reads are
plain fields. -/
structure MTDataConfig where
  load_from_cached_dataset : Option Bool
  src_file_name : String
  tgt_file_name : String
  tokens_in_batch : Nat
  clean : Option Bool
  max_seq_length : Option Nat
  min_seq_length : Option Nat
  max_seq_length_diff : Option Nat
  max_seq_length_ratio : Option Nat
  cache_ids : Option Bool
  cache_data_per_node : Option Bool
  use_cache : Option Bool
  reverse_lang_direction : Option Bool
  shuffle : Bool
  num_workers : Option Nat
  pin_memory : Option Bool
  drop_last : Option Bool
deriving DecidableEq

/-- The keyword arguments passed to the `TranslationDataset` constructor
(lines 265-278). -/
structure TranslationDatasetArgs where
  dataset_src : String
  dataset_tgt : String
  tokens_in_batch : Nat
  clean : Bool
  max_seq_length : Nat
  min_seq_length : Nat
  max_seq_length_diff : Nat
  max_seq_length_ratio : Nat
  cache_ids : Bool
  cache_data_per_node : Bool
  use_cache : Bool
  reverse_lang_direction : Bool

/-- The external operations `_setup_dataloader_from_config` delegates to:
`pickle.load`, setting `dataset.reverse_lang_direction`, the
`TranslationDataset` constructor, `dataset.batchify` and the `DataLoader`
constructor (given the dataset, the sampler, `num_workers`, `pin_memory`,
`drop_last`); `expanduser` is `Path(...).expanduser()`.  `D` is the abstract
dataset type and `DL` the abstract dataloader type. -/
structure DataExternal (D DL : Type) where
  pickle_load : String → D
  set_reverse_lang_direction : D → Bool → D
  translation_dataset : TranslationDatasetArgs → D
  batchify : D → D
  expanduser : String → String
  data_loader : D → Sampler → Nat → Bool → Bool → DL

/-- Shallow embedding of `MTEncDecModel._setup_dataloader_from_config`
(mt_enc_dec_model.py lines 257-291), returning the result — the dataloader,
or the `ValueError` of line 261 as `Except.error` — together with the list of
construction effects that were performed, in order. -/
def MTEncDecModel.setup_dataloader_from_config {D DL : Type}
    (ext : DataExternal D DL) (cfg : MTDataConfig) :
    Except String DL × List DataLoaderEffect :=
  if cfg.load_from_cached_dataset.getD false then
    if cfg.src_file_name ≠ cfg.tgt_file_name then
      (Except.error "src must be equal to target for cached dataset", [])
    else
      let dataset := ext.pickle_load cfg.src_file_name
      let dataset := ext.set_reverse_lang_direction dataset
        (cfg.reverse_lang_direction.getD false)
      let sampler := if cfg.shuffle then Sampler.random else Sampler.sequential
      (Except.ok (ext.data_loader dataset sampler (cfg.num_workers.getD 2)
          (cfg.pin_memory.getD false) (cfg.drop_last.getD false)),
        [DataLoaderEffect.load_cached_dataset, DataLoaderEffect.build_data_loader])
  else
    let dataset := ext.translation_dataset
      { dataset_src := ext.expanduser cfg.src_file_name
        dataset_tgt := ext.expanduser cfg.tgt_file_name
        tokens_in_batch := cfg.tokens_in_batch
        clean := cfg.clean.getD false
        max_seq_length := cfg.max_seq_length.getD 512
        min_seq_length := cfg.min_seq_length.getD 1
        max_seq_length_diff := cfg.max_seq_length_diff.getD 512
        max_seq_length_ratio := cfg.max_seq_length_ratio.getD 512
        cache_ids := cfg.cache_ids.getD false
        cache_data_per_node := cfg.cache_data_per_node.getD false
        use_cache := cfg.use_cache.getD false
        reverse_lang_direction := cfg.reverse_lang_direction.getD false }
    let dataset := ext.batchify dataset
    let sampler := if cfg.shuffle then Sampler.random else Sampler.sequential
    (Except.ok (ext.data_loader dataset sampler (cfg.num_workers.getD 2)
        (cfg.pin_memory.getD false) (cfg.drop_last.getD false)),
      [DataLoaderEffect.build_translation_dataset, DataLoaderEffect.batchify,
        DataLoaderEffect.build_data_loader])

/-- C8: Cached-dataset loading fails fast: `_setup_dataloader_from_config`
raises its `ValueError` if and only if `load_from_cached_dataset` is true in
the config and `cfg.src_file_name` differs from `cfg.tgt_file_name`; the
performed-effects list shows that in the error case no dataset is loaded or
built and no dataloader is constructed (the effect list is empty), and
otherwise names exactly the constructions of the taken branch. -/
theorem c8_cached_dataset_fails_fast {D DL : Type} (ext : DataExternal D DL)
    (cfg : MTDataConfig) :
    ((MTEncDecModel.setup_dataloader_from_config ext cfg).1
        = Except.error "src must be equal to target for cached dataset"
      ↔ (cfg.load_from_cached_dataset.getD false = true
          ∧ cfg.src_file_name ≠ cfg.tgt_file_name))
    ∧ ((MTEncDecModel.setup_dataloader_from_config ext cfg).1.isOk = false
      ↔ (cfg.load_from_cached_dataset.getD false = true
          ∧ cfg.src_file_name ≠ cfg.tgt_file_name))
    ∧ ((MTEncDecModel.setup_dataloader_from_config ext cfg).2
        = if cfg.load_from_cached_dataset.getD false then
            (if cfg.src_file_name ≠ cfg.tgt_file_name then []
             else [DataLoaderEffect.load_cached_dataset,
                   DataLoaderEffect.build_data_loader])
          else [DataLoaderEffect.build_translation_dataset,
                DataLoaderEffect.batchify, DataLoaderEffect.build_data_loader]) := by
  by_cases hload : cfg.load_from_cached_dataset.getD false
  · by_cases hneq : cfg.src_file_name = cfg.tgt_file_name
    · refine ⟨?_, ?_, ?_⟩ <;>
        simp [MTEncDecModel.setup_dataloader_from_config, hload, hneq, Except.isOk,
          Except.toBool]
    · refine ⟨?_, ?_, ?_⟩ <;>
        simp [MTEncDecModel.setup_dataloader_from_config, hload, hneq, Except.isOk,
          Except.toBool]
  · refine ⟨?_, ?_, ?_⟩ <;>
      simp [MTEncDecModel.setup_dataloader_from_config, hload, Except.isOk,
        Except.toBool]

/-- The mutable module state touched by `translate`: the
`torch.nn.Module.training` flag, set to `False` by `self.eval()` and to the
saved value by `self.train(mode=mode)`. -/
structure ModuleMode where
  training : Bool
deriving DecidableEq

/-- The per-sentence pipeline operations that `translate` runs inside its
`try` block, each of which may raise (an `Except.error` of the abstract
exception type `E`): the encoder tokenizer's `text_to_ids`, then — for the
bos/eos-wrapped source row — the encoder embedding and encoder, then
`beam_search` (returning the first beam row), `ids_to_text` and the Moses
`detokenize` on the split translation.  The special ids come from the two
tokenizers held by the model. -/
structure MTTranslatePipeline (E H : Type) where
  encoder_tokenizer : TokenizerModel
  decoder_tokenizer : TokenizerModel
  text_to_ids : String → Except E (List Nat)
  encoder_embedding : List Nat → Except E H
  encoder : H → Except E H
  beam_search : H → Except E (List Nat)
  ids_to_text : List Nat → Except E String
  detokenize : List String → Except E String

/-- One iteration of the loop of `MTEncDecModel.translate` (lines 321-332):
tokenize, wrap with bos/eos, embed and encode, beam-search, filter the
predicted ids below the decoder vocabulary (the line-116 masked fill applied
to the returned row), decode to text, split and detokenize. -/
def MTTranslatePipeline.translate_one {E H : Type} (p : MTTranslatePipeline E H)
    (txt : String) : Except E String := do
  let ids ← p.text_to_ids txt
  let ids := [p.encoder_tokenizer.bos_id] ++ ids ++ [p.encoder_tokenizer.eos_id]
  let src_embeddings ← p.encoder_embedding ids
  let src_hiddens ← p.encoder src_embeddings
  let beam_results ← p.beam_search src_hiddens
  let beam_results := beam_results.map (fun x =>
    if p.decoder_tokenizer.vocab_size ≤ x then p.decoder_tokenizer.unk_id else x)
  let translation ← p.ids_to_text beam_results
  p.detokenize (translation.splitOn " ")

/-- The `for txt in text` loop of `translate`, accumulating the results in
order; the first raised exception aborts the loop and propagates. -/
def MTTranslatePipeline.translate_loop {E H : Type} (p : MTTranslatePipeline E H) :
    List String → Except E (List String)
  | [] => Except.ok []
  | txt :: rest => do
    let t ← p.translate_one txt
    let ts ← p.translate_loop rest
    Except.ok (t :: ts)

/-- Shallow embedding of `MTEncDecModel.translate` (mt_enc_dec_model.py lines
305-335): the method saves `mode = self.training`, switches the module to
eval mode inside the `try` (`self.eval()`), runs the per-sentence pipeline,
and in the `finally` block always restores the saved mode
(`self.train(mode=mode)`) — whether the body returned or raised; a raised
exception is returned as `Except.error` next to the final module state. -/
def MTTranslatePipeline.translate {E H : Type} (p : MTTranslatePipeline E H)
    (state0 : ModuleMode) (text : List String) :
    Except E (List String) × ModuleMode :=
  let mode := state0.training
  let state1 : ModuleMode := { training := false }
  let res := p.translate_loop text
  (res, { state1 with training := mode })

/-- C9: `translate` preserves the training-mode flag: for every pipeline —
including every combination of steps that raise — the module's training flag
after the call equals its value before the call, whatever the outcome; and
the claim's error coverage is explicit: the flag is restored also when the
result is an `Except.error`. -/
theorem c9_translate_preserves_training_mode {E H : Type}
    (p : MTTranslatePipeline E H) (state0 : ModuleMode) (text : List String) :
    ((p.translate state0 text).2.training = state0.training)
    ∧ ((p.translate state0 text).2 = state0)
    ∧ (∀ e : E, (p.translate state0 text).1 = Except.error e →
        (p.translate state0 text).2.training = state0.training) := by
  refine ⟨rfl, ?_, fun e _ => rfl⟩
  cases state0
  rfl
